import Mathlib

/-!
Verification of `twisted/conch/endpoints.py` (SSH command-execution
endpoints): a shallow embedding of the module's state machine,
authenticator, channel and connection-creator strategies, with theorems
about their behaviour.

Conventions of the embedding:
* Python byte strings are `List Nat`; opaque object identities
  (connections, protocols, deferreds, peers, usernames) are `Nat`.
* A Python exception escaping a method is `Except.error`; `PyError`
  records the exception class.
* Callback side effects are reified as explicit effect lists, in the
  order the source performs them.
-/

namespace SSHEndpoints

/-- Failure reasons that can settle a deferred in this module.  `raw n`
stands for an arbitrary externally supplied disconnect reason. -/
inductive Reason where
  | dialFailure
  | hostKeyRejected
  | authenticationFailed
  | channelOpenFailed
  | execRejected
  | connectionDone
  | raw (n : Nat)
deriving DecidableEq, Repr

/-- Python exception classes raised by code paths modelled here. -/
inductive PyError where
  | attributeError
deriving DecidableEq, Repr

/-- The public half of a key pair (`twisted.conch.ssh.keys.Key.public()`). -/
structure PubKey where
  id : Nat
deriving DecidableEq, Repr

/-- A key pair held locally by the client. -/
structure Key where
  id : Nat
deriving DecidableEq, Repr

/-- `Key.public()`: the public part of a key pair. -/
def Key.public (k : Key) : PubKey := ⟨k.id⟩

/-- `Key.blob()` on a public key, as passed to an agent for signing. -/
def PubKey.blob (p : PubKey) : Nat := p.id

/-- `_CommandTransport._state`: `b'STARTING' -> b'SECURING' ->
b'AUTHENTICATING' -> b'CHANNELLING' -> b'RUNNING'`. -/
inductive ConnState where
  | STARTING
  | SECURING
  | AUTHENTICATING
  | CHANNELLING
  | RUNNING
deriving DecidableEq, Repr

/-- `_CommandTransport.connectionLost` (endpoints.py lines 401-412),
returned as the list of errback calls made on
`self.factory.connectionReady` (at most one):

* if `self._state == b'RUNNING'` or `self.factory.connectionReady is None`,
  return with no errback;
* if `self._state == b'SECURING'` and `self._hostKeyFailure is not None`,
  the reason becomes the recorded host-key failure;
* elif `self._state == b'AUTHENTICATING'`, the reason becomes
  `AuthenticationFailed`;
* the (possibly replaced) reason is errbacked on `connectionReady`. -/
def connectionLost (st : ConnState) (hostKeyFailure : Option Reason)
    (connectionReadyPresent : Bool) (reason : Reason) : List Reason :=
  if st = ConnState.RUNNING ∨ connectionReadyPresent = false then []
  else
    match st, hostKeyFailure with
    | ConnState.SECURING, some f => [f]
    | ConnState.AUTHENTICATING, _ => [Reason.authenticationFailed]
    | _, _ => [reason]

/-- State held by an attached SSH agent: the public keys it will offer,
in order. -/
structure AgentState where
  blobs : List PubKey
deriving DecidableEq, Repr

/-- Modelled from the spec: `SSHAgentClient.getPublicKey`
(`twisted.conch.client.agent`, not under src/).  Spec §6 AgentClient:
`getNextPublicKey() → Key|None` — return the agent's next held public
key, or None once its keys are exhausted. -/
def agentGetPublicKey (a : AgentState) : Option PubKey × AgentState :=
  match a.blobs with
  | [] => (none, ⟨[]⟩)
  | b :: rest => (some b, ⟨rest⟩)

/-- Attribute state of a `UserAuth` instance: `agent`, `keys`, `key`
(the most recently popped key pair) and `password`. -/
structure UserAuthState where
  agent : Option AgentState
  keys : List Key
  key : Option Key
  password : Option (List Nat)
deriving DecidableEq, Repr

namespace UserAuth

/-- `UserAuth.getPublicKey` (endpoints.py lines 247-264):

* if `self.agent is not None`, return `self.agent.getPublicKey()`;
* otherwise, if `self.keys` is non-empty, `self.key = self.keys.pop(0)`,
  else `self.key = None`;
* return `self.key.public()` — which raises `AttributeError` when
  `self.key` is `None`, because `None` has no `public` method. -/
def getPublicKey (st : UserAuthState) : Except PyError (Option PubKey) × UserAuthState :=
  match st.agent with
  | some a =>
      let r := agentGetPublicKey a
      (Except.ok r.1, { st with agent := some r.2 })
  | none =>
      match st.keys with
      | k :: rest => (Except.ok (some k.public), { st with keys := rest, key := some k })
      | [] => (Except.error PyError.attributeError, { st with keys := [], key := none })

/-- Result of a signature request handled by `UserAuth.signData`. -/
inductive SignResult where
  | agentSigned (blob : Nat) (data : List Nat)
  | localSigned (publicKey : PubKey) (data : List Nat)
deriving DecidableEq, Repr

/-- `UserAuth.signData` (endpoints.py lines 267-278): if an agent is
attached, return `self.agent.signData(publicKey.blob(), signData)`;
otherwise fall back to `SSHUserAuthClient.signData`.  The base-class
branch is modelled from the spec (§4.5: "sign locally with the
corresponding private key"), since `twisted.conch.ssh.userauth` is not
under src/. -/
def signData (agent : Option AgentState) (publicKey : PubKey) (data : List Nat) : SignResult :=
  match agent with
  | some _ => SignResult.agentSigned publicKey.blob data
  | none => SignResult.localSigned publicKey data

end UserAuth

/-- Modelled from the spec: the driver loop of the authentication
service (`twisted.conch.ssh.userauth.SSHUserAuthClient`, not under
src/).  Spec §4.5/§6: the service repeatedly asks the Authenticator for
the next public key, offering each; when the Authenticator answers None
it stops offering keys (and moves on to password authentication).  The
result is the list of offered public keys, then `Except.ok ()` when the
key phase ended normally (password next) or `Except.error e` when the
Authenticator raised, and the final Authenticator state. -/
def runOffers : Nat → UserAuthState → List PubKey × Except PyError Unit × UserAuthState
  | 0, st => ([], Except.ok (), st)
  | fuel + 1, st =>
      match UserAuth.getPublicKey st with
      | (Except.error e, st2) => ([], Except.error e, st2)
      | (Except.ok none, st2) => ([], Except.ok (), st2)
      | (Except.ok (some pk), st2) =>
          let r := runOffers fuel st2
          (pk :: r.1, r.2.1, r.2.2)

/-- The world visible to `_ConnectionReady.serviceStarted`: the
factory's `connectionReady` deferred (by identity, `none` once cleared)
and the transport's `_state`. -/
structure ReadySignalState where
  connectionReady : Option Nat
  transportState : ConnState
deriving DecidableEq, Repr

/-- Effects performed by `_ConnectionReady.serviceStarted`, in order. -/
inductive ReadyEffect where
  | clearConnectionReady
  | fireWithConnection (d : Nat)
deriving DecidableEq, Repr

namespace ConnectionReady

/-- `_ConnectionReady.serviceStarted` (endpoints.py lines 219-230):
`d, self._factory.connectionReady = self._factory.connectionReady, None`
then `d.callback(self)` — the stored deferred reference is cleared
before the deferred is fired with the connection object.  No assignment
to the transport's `_state` occurs anywhere in the method (or in any
callback it triggers), so `transportState` is carried through
unchanged.  When `connectionReady` was already `None`, the clearing
still happens and then `None.callback(self)` raises `AttributeError`. -/
def serviceStarted (s : ReadySignalState) :
    List ReadyEffect × ReadySignalState × Except PyError Unit :=
  match s.connectionReady with
  | some d =>
      ([ReadyEffect.clearConnectionReady, ReadyEffect.fireWithConnection d],
       { s with connectionReady := none }, Except.ok ())
  | none =>
      ([ReadyEffect.clearConnectionReady],
       { s with connectionReady := none }, Except.error PyError.attributeError)

end ConnectionReady

/-- The address record built by `SSHCommandAddress.__init__`
(endpoints.py lines 80-96). -/
structure SSHCommandAddress where
  server : Nat
  username : Nat
  command : List Nat
deriving DecidableEq, Repr

/-- Observable effects of `_CommandChannel` methods, in execution
order. -/
inductive Effect where
  | cleanupConnection (conn : Nat)
  | protocolConnectionLost (reason : Reason)
  | commandConnectedErrback (reason : Reason)
  | commandConnectedCallback (protocol : Nat)
  | buildProtocol (addr : SSHCommandAddress)
  | makeConnection (protocol : Nat)
deriving DecidableEq, Repr

namespace CommandChannel

/-- `_CommandChannel._execSuccess` (endpoints.py lines 162-178),
parameterised by the protocol factory `buildP`:

* `self._protocol = self._protocolFactory.buildProtocol(
     SSHCommandAddress(peer, username, command))`;
* `self._protocol.makeConnection(self)`;
* `self._commandConnected.callback(self._protocol)`.

`peer` is `self.conn.transport.transport.getPeer()`, `username` is
`self.conn.transport.factory.username` and `command` is
`self.conn.transport.factory.command`. -/
def execSuccess (buildP : SSHCommandAddress → Nat) (peer username : Nat)
    (command : List Nat) : List Effect :=
  let addr : SSHCommandAddress := ⟨peer, username, command⟩
  let p := buildP addr
  [Effect.buildProtocol addr, Effect.makeConnection p,
   Effect.commandConnectedCallback p]

/-- `_CommandChannel.closed` (endpoints.py lines 192-199):
`self._creator.cleanupConnection(self.conn)` and then
`self._protocol.connectionLost(Failure(ConnectionDone(...)))`.
`protocol` is `some p` when `_execSuccess` ran (so `self._protocol`
exists); when it never ran, the attribute access raises
`AttributeError` — after the cleanup call already happened. -/
def closed (conn : Nat) (protocol : Option Nat) :
    List Effect × Except PyError Unit :=
  match protocol with
  | some _ =>
      ([Effect.cleanupConnection conn,
        Effect.protocolConnectionLost Reason.connectionDone], Except.ok ())
  | none =>
      ([Effect.cleanupConnection conn], Except.error PyError.attributeError)

end CommandChannel

/-- Outcome of a `connect` call: the settlement of the deferred
returned to the caller, and the `cleanupConnection` calls made by
`disconnectOnFailure` (each recorded by the connection passed). -/
structure ConnectRun where
  result : Except Reason Nat
  cleanupCalls : List Nat
deriving Repr

namespace SSHCommandEndpoint

/-- `SSHCommandEndpoint._executeCommand` (endpoints.py lines 547-571),
as a function of the eventual settlement of the `commandConnected`
deferred.  The method installs `disconnectOnFailure` as an errback on
`commandConnected`: on failure it calls
`self._creator.cleanupConnection(connection)` and returns the failure
unchanged; on success no errback runs. -/
def executeCommand (connection : Nat) (commandOutcome : Except Reason Nat) : ConnectRun :=
  match commandOutcome with
  | Except.error r => { result := Except.error r, cleanupCalls := [connection] }
  | Except.ok p => { result := Except.ok p, cleanupCalls := [] }

/-- `SSHCommandEndpoint.connect` (endpoints.py lines 527-544):
`d = self._creator.secureConnection()` followed by
`d.addCallback(self._executeCommand, protocolFactory)`.  Deferred
semantics: a callback (not errback) is skipped when the deferred fails,
so a failed `secureConnection` propagates directly to the caller and
`_executeCommand` never runs. -/
def connect (secureOutcome : Except Reason Nat)
    (commandOutcome : Except Reason Nat) : ConnectRun :=
  match secureOutcome with
  | Except.error r => { result := Except.error r, cleanupCalls := [] }
  | Except.ok connection => executeCommand connection commandOutcome

end SSHCommandEndpoint

/-- The three ways a command's channel lifecycle can play out after
`_executeCommand` has opened it. -/
inductive ChannelScenario where
  | openFailed
  | execRejected
  | execSuccessThenClosed
deriving DecidableEq, Repr

/-- How each scenario settles the `commandConnected` deferred
(`openFailed` and `_execFailure` errback it, endpoints.py lines 136-141
and 154-159; `_execSuccess` calls it back with the protocol). -/
def commandOutcomeOf : ChannelScenario → Except Reason Nat
  | ChannelScenario.openFailed => Except.error Reason.channelOpenFailed
  | ChannelScenario.execRejected => Except.error Reason.execRejected
  | ChannelScenario.execSuccessThenClosed => Except.ok 0

/-- `self._protocol` at channel-close time: set only by `_execSuccess`. -/
def protocolOf : ChannelScenario → Option Nat
  | ChannelScenario.execSuccessThenClosed => some 0
  | _ => none

/-- Modelled from the spec: close delivery by the multiplexed-connection
layer (`twisted.conch.ssh.connection`, not under src/).  A channel whose
open failed is never notified of close; a channel that did open receives
the `closed` notification when the channel or its connection shuts down
(spec §4.7 "On channel close", §7 NormalClose, glossary "Channel: a
multiplexed logical stream within one transport connection") — in the
`execRejected` scenario the errback's own cleanup closes the connection,
which closes the opened channel. -/
def closeDelivered : ChannelScenario → Bool
  | ChannelScenario.openFailed => false
  | _ => true

/-- All `cleanupConnection` calls made on `conn` over a whole scenario:
those from `disconnectOnFailure` (the errback installed by
`_executeCommand`) followed by those from `_CommandChannel.closed` when
a close is delivered.  Both call sites invoke the one `self._creator`
that built the channel. -/
def scenarioCleanupCalls (s : ChannelScenario) (conn : Nat) : List Nat :=
  (SSHCommandEndpoint.executeCommand conn (commandOutcomeOf s)).cleanupCalls ++
  (if closeDelivered s then
     (CommandChannel.closed conn (protocolOf s)).1.filterMap fun e =>
       match e with
       | Effect.cleanupConnection c => some c
       | _ => none
   else [])

/-- The two key lists alive during authentication over a new
connection: `factoryKeys` is the caller-supplied list (the same list
object as `helper.keys` and `factory.keys`), `userauthKeys` is the
`UserAuth` instance's own list. -/
structure AuthKeysState where
  factoryKeys : List Key
  userauthKeys : List Key
deriving DecidableEq, Repr

/-- Key-list setup in `_CommandTransport.connectionSecure`
(endpoints.py lines 352-372): `userauth.keys = list(self.factory.keys)`
builds a fresh list with the same contents — a copy, not an alias of
the caller's list. -/
def connectionSecureKeys (callerKeys : List Key) : AuthKeysState :=
  { factoryKeys := callerKeys, userauthKeys := callerKeys }

/-- Recursion worker for `consumeAllKeys`: pops keys off the `UserAuth`
list one by one; the factory's list `fks` is never written. -/
def consumeKeysFrom (fks : List Key) : List Key → List PubKey × AuthKeysState
  | [] => ([], ⟨fks, []⟩)
  | k :: rest =>
      let r := consumeKeysFrom fks rest
      (k.public :: r.1, r.2)

/-- Drain every key through `UserAuth.getPublicKey`'s pop:
`self.keys.pop(0)` removes from the `UserAuth` list only; no code path
writes `factory.keys`.  Returns the offered public keys in order and
the final state of both lists. -/
def consumeAllKeys (s : AuthKeysState) : List PubKey × AuthKeysState :=
  consumeKeysFrom s.factoryKeys s.userauthKeys

/-- A deferred as observed synchronously by its creator: whether it has
already fired, and with what. -/
structure SyncDeferred (α : Type) where
  alreadyFired : Bool
  result : Option (Except Reason α)
deriving Repr

/-- `twisted.internet.defer.succeed(x)`: a deferred that has already
been fired with `x`. -/
def succeed {α : Type} (x : α) : SyncDeferred α :=
  { alreadyFired := true, result := some (Except.ok x) }

namespace ExistingConnectionHelper

/-- `_ExistingConnectionHelper.secureConnection` (endpoints.py lines
663-668): `return succeed(self.connection)`. -/
def secureConnection (connection : Nat) : SyncDeferred Nat :=
  succeed connection

/-- `_ExistingConnectionHelper.cleanupConnection` (endpoints.py lines
671-675): the body is empty — no effects, and the connection it was
handed is untouched. -/
def cleanupConnection (connection : Nat) : List Effect × Nat :=
  ([], connection)

end ExistingConnectionHelper

/-! ## Theorems -/

/-- C1: on connection loss, if the transport is `RUNNING` or the ready
deferred was already consumed, no errback is made; otherwise exactly one
errback is made, with the recorded host-key failure when the state is
`SECURING` and one was recorded, with `AuthenticationFailed` when the
state is `AUTHENTICATING`, and with the raw disconnect reason in every
other case.  In all cases at most one errback happens. -/
theorem C1_connectionLost_classification (st : ConnState) (hkf : Option Reason)
    (ready : Bool) (r : Reason) :
    (connectionLost st hkf ready r).length ≤ 1 ∧
    ((st = ConnState.RUNNING ∨ ready = false) → connectionLost st hkf ready r = []) ∧
    (ready = true → ∀ f, st = ConnState.SECURING → hkf = some f →
      connectionLost st hkf ready r = [f]) ∧
    (ready = true → st = ConnState.AUTHENTICATING →
      connectionLost st hkf ready r = [Reason.authenticationFailed]) ∧
    (ready = true → st ≠ ConnState.RUNNING → st ≠ ConnState.AUTHENTICATING →
      (st = ConnState.SECURING → hkf = none) →
      connectionLost st hkf ready r = [r]) := by
  unfold connectionLost
  refine ⟨?_, ?_, ?_, ?_, ?_⟩
  · split
    · simp
    · cases st <;> cases hkf <;> simp
  · intro h
    rw [if_pos]
    rcases h with h | h
    · exact Or.inl h
    · exact Or.inr h
  · rintro rfl f rfl rfl
    simp
  · rintro rfl rfl
    rw [if_neg (by simp)]
  · rintro rfl hrun hauth hsec
    rw [if_neg]
    · cases st <;> cases hkf <;> simp_all
    · simp [hrun]

/-- Witness for C1 at concrete inputs: a `SECURING` disconnect with a
recorded host-key failure surfaces that failure, and a `RUNNING`
disconnect surfaces nothing. -/
theorem C1_connectionLost_classification_witness :
    connectionLost ConnState.SECURING (some Reason.hostKeyRejected) true (Reason.raw 3) =
      [Reason.hostKeyRejected] ∧
    connectionLost ConnState.RUNNING none true (Reason.raw 3) = [] :=
  ⟨(C1_connectionLost_classification ConnState.SECURING (some Reason.hostKeyRejected)
      true (Reason.raw 3)).2.2.1 rfl Reason.hostKeyRejected rfl rfl,
   (C1_connectionLost_classification ConnState.RUNNING none true
      (Reason.raw 3)).2.1 (Or.inl rfl)⟩

/-- Helper for C2: with no agent, draining the Authenticator offers
each key in order (popping it from the list) and then raises
`AttributeError` once the list is empty. -/
theorem runOffers_no_agent (keys : List Key) : ∀ (k0 : Option Key) (p : Option (List Nat)),
    runOffers (keys.length + 1) ⟨none, keys, k0, p⟩ =
      (keys.map Key.public, Except.error PyError.attributeError, ⟨none, [], none, p⟩) := by
  induction keys with
  | nil =>
      intro k0 p
      rfl
  | cons k rest ih =>
      intro k0 p
      have step : runOffers (rest.length + 1 + 1) ⟨none, k :: rest, k0, p⟩ =
          (k.public :: (runOffers (rest.length + 1) ⟨none, rest, some k, p⟩).1,
           (runOffers (rest.length + 1) ⟨none, rest, some k, p⟩).2.1,
           (runOffers (rest.length + 1) ⟨none, rest, some k, p⟩).2.2) := rfl
      show runOffers (rest.length + 1 + 1) ⟨none, k :: rest, k0, p⟩ = _
      rw [step, ih]
      rfl

/-- C2: with no agent attached, the Authenticator offers the public
halves of the local keys in their original order, removing each key as
it is offered; but once the list is exhausted the next `getPublicKey`
call raises `AttributeError` (from `None.public()`) instead of
returning None, so the key phase ends abnormally rather than handing
over to password authentication. -/
theorem C2_keys_in_order_then_crash (keys : List Key) (p : Option (List Nat)) :
    (runOffers (keys.length + 1) ⟨none, keys, none, p⟩).1 = keys.map Key.public ∧
    (runOffers (keys.length + 1) ⟨none, keys, none, p⟩).2.1 =
      Except.error PyError.attributeError ∧
    UserAuth.getPublicKey ⟨none, [], none, p⟩ =
      (Except.error PyError.attributeError, ⟨none, [], none, p⟩) := by
  rw [runOffers_no_agent]
  exact ⟨rfl, rfl, rfl⟩

/-- Counterexample for C3: `serviceStarted` leaves the transport state
exactly where it was (here `CHANNELLING`); it never becomes `RUNNING`. -/
theorem C3_counterexample :
    (ConnectionReady.serviceStarted
        { connectionReady := some 0, transportState := ConnState.CHANNELLING }
      ).2.1.transportState ≠ ConnState.RUNNING := by
  decide

/-- C3 (amended): when the connection-ready service starts with the
deferred still stored, the stored reference is cleared before the
deferred is fired with the connection object, the transport state is
left unchanged (no transition to `RUNNING` occurs), and a second
service-start finds no deferred to fire — it cannot resolve it twice
(it raises `AttributeError` instead). -/
theorem C3_serviceStarted_clears_then_fires (d : Nat) (st : ConnState) :
    ConnectionReady.serviceStarted { connectionReady := some d, transportState := st } =
      ([ReadyEffect.clearConnectionReady, ReadyEffect.fireWithConnection d],
       { connectionReady := none, transportState := st }, Except.ok ()) ∧
    ConnectionReady.serviceStarted { connectionReady := none, transportState := st } =
      ([ReadyEffect.clearConnectionReady],
       { connectionReady := none, transportState := st },
       Except.error PyError.attributeError) :=
  ⟨rfl, rfl⟩

/-- Counterexample for C4: when `secureConnection` fails (here with the
host-key rejection of the spec's own scenario), the failure is re-raised
to `connect`'s caller but `cleanupConnection` is never invoked — the
command stage is attached with `addCallback`, which deferred semantics
skip on failure, and no other errback calls cleanup. -/
theorem C4_counterexample :
    (SSHCommandEndpoint.connect (Except.error Reason.hostKeyRejected)
        (Except.ok 0)).result = Except.error Reason.hostKeyRejected ∧
    (SSHCommandEndpoint.connect (Except.error Reason.hostKeyRejected)
        (Except.ok 0)).cleanupCalls = [] :=
  ⟨rfl, rfl⟩

/-- C4 (amended): failures of the per-command stage (channel-open
failure, exec rejection) invoke the creator's `cleanupConnection` on the
secured connection before the failure is re-raised unchanged as the
failure of the future returned by `connect`; failures of the securing
stage (dial, host-key, authentication) propagate unchanged without any
`cleanupConnection` call, because the command stage is skipped; on
success no cleanup happens. -/
theorem C4_cleanup_only_after_secure (connection : Nat) (r : Reason) (p : Nat)
    (co : Except Reason Nat) :
    SSHCommandEndpoint.connect (Except.ok connection) (Except.error r) =
      { result := Except.error r, cleanupCalls := [connection] } ∧
    SSHCommandEndpoint.connect (Except.error r) co =
      { result := Except.error r, cleanupCalls := [] } ∧
    SSHCommandEndpoint.connect (Except.ok connection) (Except.ok p) =
      { result := Except.ok p, cleanupCalls := [] } :=
  ⟨rfl, rfl, rfl⟩

/-- Counterexample for C5: in the scenario where the channel opened but
the exec request was rejected, `cleanupConnection` is invoked twice on
the same connection — once by `disconnectOnFailure` on the errback of
the per-command deferred, and once more by `_CommandChannel.closed` when
the channel (which did open) is closed; neither call site is guarded. -/
theorem C5_counterexample :
    ¬ (scenarioCleanupCalls ChannelScenario.execRejected 0).length ≤ 1 := by
  decide

/-- C5 (amended): every `cleanupConnection` call targets the one
connection of the creator that built the channel (never another
strategy's connection), and in the open-failure and normal-close
scenarios it is invoked exactly once; but the failure-errback path and
the channel-closed path are not mutually exclusive, so an exec
rejection followed by the channel close invokes it twice. -/
theorem C5_cleanup_per_scenario (c : Nat) :
    scenarioCleanupCalls ChannelScenario.openFailed c = [c] ∧
    scenarioCleanupCalls ChannelScenario.execSuccessThenClosed c = [c] ∧
    scenarioCleanupCalls ChannelScenario.execRejected c = [c, c] ∧
    ∀ s : ChannelScenario, ∀ x ∈ scenarioCleanupCalls s c, x = c := by
  refine ⟨rfl, rfl, rfl, ?_⟩
  intro s x hx
  cases s <;> simp [scenarioCleanupCalls, SSHCommandEndpoint.executeCommand,
    commandOutcomeOf, protocolOf, closeDelivered, CommandChannel.closed] at hx <;>
    simp [hx]

/-- C6: when the channel of a running protocol closes, the creator's
`cleanupConnection` is invoked on the underlying connection first, and
then — and only then — the protocol's `connectionLost` is invoked with a
closed-normally (`ConnectionDone`) reason; the already-settled
per-command deferred is not touched (no callback or errback effect
occurs). -/
theorem C6_closed_cleanup_then_connectionLost (conn : Nat) (p : Nat) :
    CommandChannel.closed conn (some p) =
      ([Effect.cleanupConnection conn,
        Effect.protocolConnectionLost Reason.connectionDone], Except.ok ()) ∧
    ∀ e ∈ (CommandChannel.closed conn (some p)).1,
      (∀ r, e ≠ Effect.commandConnectedErrback r) ∧
      (∀ q, e ≠ Effect.commandConnectedCallback q) := by
  refine ⟨rfl, ?_⟩
  intro e he
  constructor
  · intro r h
    subst h
    simp [CommandChannel.closed] at he
  · intro q h
    subst h
    simp [CommandChannel.closed] at he

/-- Witness for C5 at concrete inputs: connection 7's exec-rejection
scenario only ever cleans up connection 7, and its open-failure
scenario cleans up exactly once. -/
theorem C5_cleanup_per_scenario_witness :
    (7 : Nat) = 7 ∧ scenarioCleanupCalls ChannelScenario.openFailed 7 = [7] :=
  ⟨(C5_cleanup_per_scenario 7).2.2.2 ChannelScenario.execRejected 7 (by decide),
   (C5_cleanup_per_scenario 7).1⟩

/-- Witness for C6 at concrete inputs: among the effects of closing
connection 5's channel with protocol 9 running is the cleanup effect,
and it is not an errback of the per-command deferred. -/
theorem C6_closed_cleanup_then_connectionLost_witness :
    Effect.cleanupConnection 5 ≠ Effect.commandConnectedErrback Reason.connectionDone :=
  ((C6_closed_cleanup_then_connectionLost 5 9).2 (Effect.cleanupConnection 5)
    (by decide)).1 Reason.connectionDone

/-- Helper for C7: with an agent attached, draining the Authenticator
offers exactly the agent's keys in order, leaves the local key list
untouched, and ends normally once the agent is exhausted. -/
theorem runOffers_agent (ab : List PubKey) :
    ∀ (keys : List Key) (k0 : Option Key) (p : Option (List Nat)),
    runOffers (ab.length + 1) ⟨some ⟨ab⟩, keys, k0, p⟩ =
      (ab, Except.ok (), ⟨some ⟨[]⟩, keys, k0, p⟩) := by
  induction ab with
  | nil =>
      intro keys k0 p
      rfl
  | cons b rest ih =>
      intro keys k0 p
      have step : runOffers (rest.length + 1 + 1) ⟨some ⟨b :: rest⟩, keys, k0, p⟩ =
          (b :: (runOffers (rest.length + 1) ⟨some ⟨rest⟩, keys, k0, p⟩).1,
           (runOffers (rest.length + 1) ⟨some ⟨rest⟩, keys, k0, p⟩).2.1,
           (runOffers (rest.length + 1) ⟨some ⟨rest⟩, keys, k0, p⟩).2.2) := rfl
      show runOffers (rest.length + 1 + 1) ⟨some ⟨b :: rest⟩, keys, k0, p⟩ = _
      rw [step, ih]

/-- C7: with an agent attached, every offered public key comes from the
agent (the whole offered sequence is the agent's key list, in order) and
the locally supplied keys are never consumed; and every signature
request is delegated to the agent's `signData` on the key's blob, never
signed locally. -/
theorem C7_agent_keys_first_and_agent_signs (ab : List PubKey) (keys : List Key)
    (p : Option (List Nat)) (pk : PubKey) (data : List Nat) :
    (runOffers (ab.length + 1) ⟨some ⟨ab⟩, keys, none, p⟩).1 = ab ∧
    (runOffers (ab.length + 1) ⟨some ⟨ab⟩, keys, none, p⟩).2.2.keys = keys ∧
    (runOffers (ab.length + 1) ⟨some ⟨ab⟩, keys, none, p⟩).2.1 = Except.ok () ∧
    UserAuth.signData (some ⟨ab⟩) pk data = UserAuth.SignResult.agentSigned pk.blob data := by
  rw [runOffers_agent]
  exact ⟨rfl, rfl, rfl, rfl⟩

/-- Helper for C8: draining pops only the Authenticator's own list; the
factory's list rides along unchanged. -/
theorem consumeKeysFrom_eq (fks : List Key) (uks : List Key) :
    consumeKeysFrom fks uks = (uks.map Key.public, ⟨fks, []⟩) := by
  induction uks with
  | nil => rfl
  | cons k rest ih =>
      show (k.public :: (consumeKeysFrom fks rest).1, (consumeKeysFrom fks rest).2) = _
      rw [ih]
      rfl

/-- Counterexample for C8: a caller-supplied list holding one key is
still non-empty after an authentication attempt consumed every key —
`connectionSecure` hands the Authenticator `list(self.factory.keys)`, a
copy, so the caller's list is never mutated. -/
theorem C8_counterexample :
    (consumeAllKeys (connectionSecureKeys [⟨0⟩])).2.factoryKeys ≠ [] := by
  decide

/-- C8 (amended): during authentication for a new connection the
Authenticator mutates in place its own copy of the key list, made at
`connectionSecure` time; after an attempt in which all keys were offered
and rejected that copy is empty, while the caller-supplied list is left
exactly as it was. -/
theorem C8_copy_consumed_caller_untouched (ks : List Key) :
    (consumeAllKeys (connectionSecureKeys ks)).1 = ks.map Key.public ∧
    (consumeAllKeys (connectionSecureKeys ks)).2.userauthKeys = [] ∧
    (consumeAllKeys (connectionSecureKeys ks)).2.factoryKeys = ks := by
  have h : consumeAllKeys (connectionSecureKeys ks) = (ks.map Key.public, ⟨ks, []⟩) :=
    consumeKeysFrom_eq ks ks
  rw [h]
  exact ⟨rfl, rfl, rfl⟩

/-- C9: on exec acceptance the channel first calls the factory with an
`SSHCommandAddress` whose fields are exactly the connection's peer
address, the authenticated username and the command bytes; then
connects the factory-built protocol to the channel via `makeConnection`;
and only after that fires the per-command deferred with that same
protocol. -/
theorem C9_execSuccess_order (buildP : SSHCommandAddress → Nat) (peer username : Nat)
    (command : List Nat) :
    CommandChannel.execSuccess buildP peer username command =
      [Effect.buildProtocol ⟨peer, username, command⟩,
       Effect.makeConnection (buildP ⟨peer, username, command⟩),
       Effect.commandConnectedCallback (buildP ⟨peer, username, command⟩)] :=
  rfl

/-- C10: for every connection `c`, the existing-connection strategy's
`secureConnection` returns an already-fired deferred whose result is
exactly `c`, and its `cleanupConnection` performs no effect and leaves
the wrapped connection unchanged. -/
theorem C10_existing_connection_helper (c : Nat) :
    ExistingConnectionHelper.secureConnection c =
      { alreadyFired := true, result := some (Except.ok c) } ∧
    ExistingConnectionHelper.cleanupConnection c = ([], c) :=
  ⟨rfl, rfl⟩

end SSHEndpoints
